import Mathlib

/-!
Verification development for the natural-language-to-SQL RAG loop of
`scripts/rag_parquet_exposures.py` (function `get_response_for_chatbot`
and its helpers).  The Python function is shallowly embedded: the two
calls to the text-generation endpoint, the schema lookup, and the
execution of the model-generated SQL query are oracles supplied through
an `Env` record (they are external collaborators whose behaviour the
script cannot determine), while everything the script itself computes —
prompt construction, sanitisation of the generated query, the
parameterised fallback query and its ILIKE matching semantics, result
formatting, and conversation-history assembly — is translated directly
from the source.
-/

/-- A conversation message: a role tag (`"system"`, `"user"` or
`"assistant"` in the intended usage, but any string, like the Python
dicts) and text content. -/
structure Msg where
  role : String
  content : String
deriving DecidableEq

/-- A result set as returned by a query: column names and one list of
cell values (rendered as text) per row. -/
structure Table where
  cols : List String
  rows : List (List String)
deriving DecidableEq

/-- The structured turn outcome returned by `get_response_for_chatbot`
(the Python dict with keys `messages`, `sql_query`, `data`, `success`,
`error`).  `data` is `none` exactly when the Python value is `None`. -/
structure TurnResult where
  messages : List Msg
  sql_query : String
  data : Option (List (List String))
  success : Bool
  error : Option String
deriving DecidableEq

/-- One row of the exposures parquet file as seen by the fallback query:
each of the ten columns named in the query, already rendered by
`CAST(col AS VARCHAR)`. -/
structure ExposureRow where
  vesselId : String
  vessel : String
  operator : String
  year : String
  type : String
  value : String
  tonnage : String
  length : String
  cargoType : String
  premium : String
deriving DecidableEq

/-- The cell values of an exposure row, in the column order of the
fallback query's WHERE clause. -/
def cells (r : ExposureRow) : List String :=
  [r.vesselId, r.vessel, r.operator, r.year, r.type, r.value,
   r.tonnage, r.length, r.cargoType, r.premium]

/-- `parquet_path`: fixed at module load as
`os.path.join(os.path.dirname(__file__), "data", "exposures.parquet")`;
a constant for the whole run of the script. -/
def parquet_path : String := "scripts/data/exposures.parquet"

/-- The module constant `SYSTEM_MESSAGE`. -/
def SYSTEM_MESSAGE : String :=
  "\nYou are a helpful assistant that answers questions about vessel insurance exposures based on an exposures data set.\nYou must use the data set to answer the questions, you should not provide any info that is not in the provided sources.\n"

/-- The system message as a conversation turn. -/
def systemMsg : Msg := ⟨"system", SYSTEM_MESSAGE⟩

/-- The `sql_generation_prompt` f-string (lines 86-101). -/
def sql_generation_prompt (schema_description user_question : String) : String :=
  "You are a SQL expert. Convert the user's natural language question into a DuckDB SQL query.\n\n"
  ++ schema_description
  ++ "\n\nImportant rules:\n1. Use the exact path '" ++ parquet_path
  ++ "' in the FROM clause\n2. Return ONLY the SQL query, no explanations or markdown\n3. Limit results to 10 rows unless the user asks for specific aggregations\n4. Use ILIKE for case-insensitive text matching\n5. For \"highest\", \"largest\", \"most\" use ORDER BY DESC\n6. For \"lowest\", \"smallest\", \"least\" use ORDER BY ASC\n7. Always use proper SQL syntax for DuckDB\n\nUser question: "
  ++ user_question ++ "\n\nSQL Query:"

/-- The prompt of the answer-synthesis call (line 172):
`f"{user_question}\nSources: {matches_table}"`. -/
def answerPrompt (user_question matches_table : String) : String :=
  user_question ++ "\nSources: " ++ matches_table

/-- Strip `n` characters of whitespace from both ends of a character
list: models Python `str.strip()` (and Lean-side `String.trim`). -/
def trimChars (s : List Char) : List Char :=
  ((s.dropWhile Char.isWhitespace).reverse.dropWhile Char.isWhitespace).reverse

/-- Fuel-driven replacement of every non-overlapping occurrence of
`pat` by `rep`, scanning left to right; models Python `str.replace`
for a non-empty `pat` (the only uses are the two code-fence patterns).
One unit of fuel is spent per character position, so `s.length` fuel
always suffices. -/
def replaceFuel (pat rep : List Char) : Nat → List Char → List Char
  | _, [] => []
  | 0, s => s
  | Nat.succ fuel, c :: rest =>
    if pat.isPrefixOf (c :: rest) then
      rep ++ replaceFuel pat rep fuel ((c :: rest).drop pat.length)
    else
      c :: replaceFuel pat rep fuel rest

/-- `str.replace` on character lists (non-empty pattern). -/
def replaceList (pat rep s : List Char) : List Char :=
  replaceFuel pat rep s.length s

/-- The query sanitiser (lines 114-116): strip, remove markdown code
fences, strip again. -/
def sanitize (s : String) : String :=
  String.mk (trimChars (replaceList "```".toList [] (replaceList "```sql".toList [] (trimChars s.toList))))

/-- SQL LIKE pattern matching over character lists: `%` matches any
(possibly empty) substring, `_` matches exactly one character, any
other pattern character matches itself.  `starScan f s` tries `f` on
every suffix of `s` (the semantics of a `%`). -/
def starScan (f : List Char → Bool) : List Char → Bool
  | [] => f []
  | c :: sr => f (c :: sr) || starScan f sr

/-- LIKE pattern matcher (DuckDB `LIKE` with no escape character). -/
def likeMatch : List Char → List Char → Bool
  | [], s => s.isEmpty
  | p :: pr, s =>
    if p = '%' then starScan (likeMatch pr) s
    else
      match s with
      | [] => false
      | c :: sr => (p == '_' || p == c) && likeMatch pr sr

/-- DuckDB `ILIKE`: case-insensitive LIKE, modelled by lower-casing
both the string and the pattern. -/
def ilike (s pat : String) : Bool :=
  likeMatch (pat.toList.map Char.toLower) (s.toList.map Char.toLower)

/-- `search_pattern` (line 141): `f'%{user_question}%'`. -/
def searchPattern (user_question : String) : String :=
  "%" ++ user_question ++ "%"

/-- The fallback query text (lines 124-139).  Note that it is built
from the module constant `parquet_path` only — the user's question
never appears in it. -/
def fallbackQueryText : String :=
  "\n        SELECT *\n        FROM '" ++ parquet_path
  ++ "'\n        WHERE \n            CAST(vesselId AS VARCHAR) ILIKE ? OR\n            CAST(vessel AS VARCHAR) ILIKE ? OR\n            CAST(operator AS VARCHAR) ILIKE ? OR\n            CAST(year AS VARCHAR) ILIKE ? OR\n            CAST(type AS VARCHAR) ILIKE ? OR\n            CAST(value AS VARCHAR) ILIKE ? OR\n            CAST(tonnage AS VARCHAR) ILIKE ? OR\n            CAST(length AS VARCHAR) ILIKE ? OR\n            CAST(cargoType AS VARCHAR) ILIKE ? OR\n            CAST(premium AS VARCHAR) ILIKE ?\n        LIMIT 10\n        "

/-- The fallback query as constructed by lines 124-142: the (constant)
query text together with the bound parameter list
`[search_pattern] * 10`, one parameter per column placeholder. -/
def mkFallbackQuery (user_question : String) : String × List String :=
  (fallbackQueryText, List.replicate 10 (searchPattern user_question))

/-- Whether an exposure row satisfies the fallback query's WHERE
clause: each of the ten casted columns is tested with
`ILIKE '%question%'` and the tests are OR-ed. -/
def rowMatches (user_question : String) (r : ExposureRow) : Bool :=
  (cells r).any (fun v => ilike v (searchPattern user_question))

/-- Executing the fallback query against the store: the WHERE filter
followed by `LIMIT 10`. -/
def fallbackRows (tbl : List ExposureRow) (user_question : String) : List ExposureRow :=
  (tbl.filter (fun r => rowMatches user_question r)).take 10

/-- The column-name list of the fallback query's `SELECT *`. -/
def exposureCols : List String :=
  ["vesselId", "vessel", "operator", "year", "type", "value",
   "tonnage", "length", "cargoType", "premium"]

/-- An exposure row list as a generic result set. -/
def exposureTable (rows : List ExposureRow) : Table :=
  ⟨exposureCols, rows.map cells⟩

/-- Markdown table header line for a column list. -/
def mdHeaderLine (cols : List String) : String :=
  "| " ++ String.intercalate " | " cols ++ " |"

/-- Markdown table separator line for a column list. -/
def mdSepLine (cols : List String) : String :=
  "| " ++ String.intercalate " | " (cols.map (fun _ => "---")) ++ " |"

/-- Markdown table data line for one row. -/
def mdRowLine (row : List String) : String :=
  "| " ++ String.intercalate " | " row ++ " |"

/-- The lines of the rendered table: one header line, one separator
line, one line per record. -/
def mdLines (t : Table) : List String :=
  mdHeaderLine t.cols :: mdSepLine t.cols :: t.rows.map mdRowLine

/-- Modelled from the spec: `pandas.DataFrame.to_markdown(index=False)`
(an external library call, §4.5 of the spec) — a markdown-style text
table with one header row, one separator row and one row per record;
cell padding is abstracted, the table shape is kept. -/
def toMarkdown (t : Table) : String :=
  String.intercalate "\n" (mdLines t)

/-- Lines 160-164: format the result set, or the empty-result
sentinel. -/
def formatResult (t : Table) : String :=
  if t.rows.length > 0 then toMarkdown t else "No matching records found."

/-- The external collaborators of one turn, as oracles:
* `schemaDescription` — `get_schema_description()` (line 83), which
  queries the parquet file and can raise;
* `genSql` — the query-synthesis chat call (lines 105-112), as a
  function of the prompt;
* `runSql` — execution of the model-generated SQL text against a fresh
  DuckDB connection (lines 119-120);
* `store` — the parquet store as seen by the fixed fallback query
  (lines 144-145): either its rows (each column already cast to
  VARCHAR) or the error raised when it cannot be read;
* `genAnswer` — the answer-synthesis chat call (lines 167-174), as a
  function of the user prompt.
`Except.error` models a raised exception. -/
structure Env where
  schemaDescription : Except String String
  genSql : String → Except String String
  runSql : String → Except String Table
  store : Except String (List ExposureRow)
  genAnswer : String → Except String String

/-- The apology content of the failure path (line 152). -/
def apologyText (err : String) : String :=
  "I encountered an error processing your question: " ++ err

/-- The failure outcome (lines 146-158): the input history with a
system turn, the user turn and the apology appended; `sql_query` is
the fallback text (the value of `search_query` at that point), `data`
is `None`, `success` is `False`. -/
def failureResult (conversation_history : List Msg) (user_question err : String) : TurnResult :=
  { messages := conversation_history ++
      [systemMsg, ⟨"user", user_question⟩, ⟨"assistant", apologyText err⟩],
    sql_query := fallbackQueryText,
    data := none,
    success := false,
    error := some err }

/-- Lines 178-185: start the output history with exactly one system
turn — reuse the input when its first turn is already a system turn,
otherwise put the fixed system message in front of it. -/
def ensureSystemFirst (conversation_history : List Msg) : List Msg :=
  if conversation_history = [] ∨ (conversation_history.headD ⟨"", ""⟩).role ≠ "system" then
    systemMsg :: conversation_history
  else
    conversation_history

/-- The tail of every turn that reaches line 160 with a result set
`matching_df` obtained from query text `search_query`: format the
result, synthesise the answer (a failure of this second endpoint call
is not caught — it propagates, line 167), build the message history and
the success outcome (lines 160-199). -/
def finishTurn (env : Env) (user_question : String) (conversation_history : List Msg)
    (search_query : String) (matching_df : Table) : Except String TurnResult :=
  let matches_table := formatResult matching_df
  match env.genAnswer (answerPrompt user_question matches_table) with
  | Except.error e => Except.error e
  | Except.ok assistant_response =>
      Except.ok
        { messages := ensureSystemFirst conversation_history ++
            [⟨"user", user_question⟩, ⟨"assistant", assistant_response⟩],
          sql_query := search_query,
          data := some matching_df.rows,
          success := true,
          error := none }

/-- The `except` branch (lines 122-158): execute the fixed fallback
query; when the store itself cannot be read, return the failure
outcome. -/
def fallbackBranch (env : Env) (user_question : String)
    (conversation_history : List Msg) : Except String TurnResult :=
  match env.store with
  | Except.ok tbl =>
      finishTurn env user_question conversation_history fallbackQueryText
        (exposureTable (fallbackRows tbl user_question))
  | Except.error fallback_error =>
      Except.ok (failureResult conversation_history user_question fallback_error)

/-- `get_response_for_chatbot` (lines 63-199).  The single broad
`except` around lines 104-120 means that any failure of the
query-synthesis call *or* of the execution of the synthesised query
enters the fallback branch; only a failure of the fallback execution
itself produces the failure outcome.  A failure of
`get_schema_description` or of the answer-synthesis call is uncaught
(`Except.error`). -/
def get_response_for_chatbot (env : Env) (user_question : String)
    (conversation_history : List Msg) : Except String TurnResult :=
  match env.schemaDescription with
  | Except.error e => Except.error e
  | Except.ok schema_description =>
    match env.genSql (sql_generation_prompt schema_description user_question) with
    | Except.error _ => fallbackBranch env user_question conversation_history
    | Except.ok raw =>
      match env.runSql (sanitize raw) with
      | Except.error _ => fallbackBranch env user_question conversation_history
      | Except.ok matching_df =>
          finishTurn env user_question conversation_history (sanitize raw) matching_df

/-! Spec-side vocabulary for stating the claims. -/

/-- Alternating user/assistant turns (complete pairs). -/
def altUA : List Msg → Bool
  | [] => true
  | u :: a :: rest => u.role == "user" && a.role == "assistant" && altUA rest
  | _ :: [] => false

/-- The spec's conversation invariant: the sequence starts with exactly
one system turn followed by alternating user/assistant turns. -/
def wfConv : List Msg → Bool
  | [] => false
  | m :: rest => m.role == "system" && altUA rest

/-- Whether turn 0 of a history has role `system`. -/
def startsWithSystem : List Msg → Bool
  | [] => false
  | m :: _ => m.role == "system"

/-- Substring test on character lists: some suffix of `hay` starts
with `needle`. -/
def containsSub (needle hay : List Char) : Bool :=
  hay.tails.any (fun t => needle.isPrefixOf t)

/-- Case-insensitive substring containment, following the spec's words
("tests ... for case-insensitive substring containment of the raw user
question"). -/
def specContainsCI (hay needle : String) : Bool :=
  containsSub (needle.toList.map Char.toLower) (hay.toList.map Char.toLower)

/-- The fallback semantics as the spec words it: keep the rows one of
whose columns contains the question case-insensitively, limited to 10
rows. -/
def specFallback (tbl : List ExposureRow) (user_question : String) : List ExposureRow :=
  (tbl.filter (fun r => (cells r).any (fun v => specContainsCI v user_question))).take 10

/-- No LIKE wildcard character in a character list. -/
def wildFreeL (q : List Char) : Bool :=
  q.all (fun c => !(c == '%') && !(c == '_'))

/-- `true` when the question contains no LIKE wildcard character. -/
def noWild (q : String) : Bool :=
  wildFreeL q.toList

/-!
A small object-level model of the Python lists involved in building the
output message history, for the frame property: a heap of list objects
addressed by allocation order, with the three operations the source
performs — allocate a fresh list (a list display or `+`), `list.copy()`
(allocate with the copied contents), and `list.extend` (in-place append
to one object).
-/

/-- A heap of message-list objects; the address of an object is its
index in `lists`. -/
structure Heap where
  lists : List (List Msg)
deriving DecidableEq

/-- Read the list object at address `a`. -/
def Heap.get (h : Heap) (a : Nat) : List Msg :=
  h.lists.getD a []

/-- Allocate a fresh list object holding `v`; returns the new heap and
the fresh address. -/
def Heap.alloc (h : Heap) (v : List Msg) : Heap × Nat :=
  (⟨h.lists ++ [v]⟩, h.lists.length)

/-- `list.extend` at address `a`: in-place append. -/
def Heap.extend (h : Heap) (a : Nat) (vs : List Msg) : Heap :=
  ⟨h.lists.set a (h.get a ++ vs)⟩

/-- Lines 178-191 at the object level, with the input history living at
address `histAddr`: either allocate `[SYSTEM_MESSAGE-turn]` and extend
it with the history (the `messages = [...]` / `messages.extend(...)`
path), or allocate a copy of the history (`conversation_history.copy()`),
then extend the chosen object with the new user and assistant turns.
Returns the heap and the address of the result list. -/
def buildMessagesOnSuccess (h : Heap) (histAddr : Nat)
    (user_question assistant_response : String) : Heap × Nat :=
  if h.get histAddr = [] ∨ ((h.get histAddr).headD ⟨"", ""⟩).role ≠ "system" then
    let p := h.alloc [systemMsg]
    let h1 := if p.1.get histAddr = [] then p.1 else p.1.extend p.2 (p.1.get histAddr)
    let h2 := h1.extend p.2 [⟨"user", user_question⟩, ⟨"assistant", assistant_response⟩]
    (h2, p.2)
  else
    let p := h.alloc (h.get histAddr)
    let h1 := p.1.extend p.2 [⟨"user", user_question⟩, ⟨"assistant", assistant_response⟩]
    (h1, p.2)

/-- Lines 147-153 at the object level: `conversation_history + [...]`
allocates a fresh list; the input object is only read. -/
def buildMessagesOnFailure (h : Heap) (histAddr : Nat)
    (user_question err : String) : Heap × Nat :=
  h.alloc (h.get histAddr ++
    [systemMsg, ⟨"user", user_question⟩, ⟨"assistant", apologyText err⟩])

/-!
Concrete fixtures used by the witnesses and counterexamples below.
-/

/-- A concrete exposure row (all columns already cast to VARCHAR). -/
def sampleRow : ExposureRow :=
  ⟨"VSL-00001", "abc", "Acme Shipping", "1999", "Tanker", "100.0",
   "5000.0", "200.0", "Oil", "77.0"⟩

/-- A well-formed three-turn history. -/
def sampleHist : List Msg :=
  [systemMsg, ⟨"user", "hello"⟩, ⟨"assistant", "hi"⟩]

/-- Environment in which the query-synthesis call fails and the store
is unreadable: the turn ends in the failure outcome. -/
def envBothFail : Env :=
  { schemaDescription := Except.ok "schema"
    genSql := fun _ => Except.error "boom"
    runSql := fun _ => Except.error "unused"
    store := Except.error "db gone"
    genAnswer := fun _ => Except.ok "the answer" }

/-- Environment in which the query-synthesis call fails but the
fallback query executes: the turn succeeds. -/
def envGenFails : Env :=
  { schemaDescription := Except.ok "schema"
    genSql := fun _ => Except.error "boom"
    runSql := fun _ => Except.error "unused"
    store := Except.ok [sampleRow]
    genAnswer := fun _ => Except.ok "the answer" }

/-- Environment in which the synthesised query is produced but fails to
execute, and the fallback succeeds. -/
def envPrimaryExecFails : Env :=
  { schemaDescription := Except.ok "schema"
    genSql := fun _ => Except.ok "SELECT nosuch FROM t"
    runSql := fun _ => Except.error "Binder Error"
    store := Except.ok [sampleRow]
    genAnswer := fun _ => Except.ok "the answer" }

/-- The outcome of `envGenFails` on question `"hello"` with an empty
history: the fallback matches nothing, the answer call succeeds. -/
def resultGenFails : TurnResult :=
  { messages := [systemMsg, ⟨"user", "hello"⟩, ⟨"assistant", "the answer"⟩],
    sql_query := fallbackQueryText,
    data := some [],
    success := true,
    error := none }

/-- A one-object heap: the input history lives at address 0. -/
def heap0 : Heap :=
  ⟨[[⟨"user", "old"⟩]]⟩

/-! ### Theory of the LIKE matcher -/

theorem starScan_eq_any (f : List Char → Bool) (s : List Char) :
    starScan f s = s.tails.any f := by
  induction s with
  | nil => simp [starScan]
  | cons c sr ih => simp [starScan, List.tails_cons, ih]

theorem starScan_likeMatch_nil (s : List Char) : starScan (likeMatch []) s = true := by
  induction s with
  | nil => simp [starScan, likeMatch]
  | cons c sr ih => simp [starScan, ih]

theorem likeMatch_percent_nil (s : List Char) : likeMatch ['%'] s = true := by
  have h : likeMatch ['%'] s = starScan (likeMatch []) s := by simp [likeMatch]
  rw [h, starScan_likeMatch_nil]

theorem wildFreeL_mem {q : List Char} (hq : wildFreeL q = true) {c : Char} (hc : c ∈ q) :
    c ≠ '%' ∧ c ≠ '_' := by
  have h := List.all_eq_true.mp hq c hc
  simp only [Bool.and_eq_true, Bool.not_eq_true', beq_eq_false_iff_ne] at h
  exact h

theorem wildFreeL_cons {c : Char} {q : List Char} (hq : wildFreeL (c :: q) = true) :
    wildFreeL q = true := by
  apply List.all_eq_true.mpr
  intro x hx
  exact List.all_eq_true.mp hq x (List.mem_cons_of_mem c hx)

theorem likeMatch_lit_percent (q : List Char) (hq : wildFreeL q = true) :
    ∀ s : List Char, likeMatch (q ++ ['%']) s = q.isPrefixOf s := by
  induction q with
  | nil =>
    intro s
    simp [likeMatch_percent_nil, List.isPrefixOf]
  | cons c q' ih =>
    intro s
    have hc := wildFreeL_mem hq (List.mem_cons_self c q')
    have hq' := wildFreeL_cons hq
    cases s with
    | nil => simp [likeMatch, hc.1, List.isPrefixOf]
    | cons d sr =>
      have hunder : (c == '_') = false := beq_eq_false_iff_ne.mpr hc.2
      simp [likeMatch, hc.1, List.isPrefixOf, hunder, ih hq']

theorem likeMatch_percent_eq_contains (q : List Char) (hq : wildFreeL q = true)
    (s : List Char) : likeMatch ('%' :: (q ++ ['%'])) s = containsSub q s := by
  have h : likeMatch ('%' :: (q ++ ['%'])) s = starScan (likeMatch (q ++ ['%'])) s := by
    simp [likeMatch]
  rw [h, starScan_eq_any, containsSub]
  exact congrArg _ (funext fun t => likeMatch_lit_percent q hq t)

theorem toNat_ofNat_valid (m : Nat) (h1 : 97 ≤ m) (h2 : m ≤ 122) :
    (Char.ofNat m).toNat = m := by
  have hv : m.isValidChar := Or.inl (by omega)
  rw [Char.ofNat, dif_pos hv]
  simp [Char.ofNatAux, Char.toNat, UInt32.toNat, Nat.toUInt32]

theorem toLower_preserves_nonwild (c : Char) (h1 : c ≠ '%') (h2 : c ≠ '_') :
    Char.toLower c ≠ '%' ∧ Char.toLower c ≠ '_' := by
  simp only [Char.toLower]
  by_cases hr : c.toNat ≥ 65 ∧ c.toNat ≤ 90
  · rw [if_pos hr]
    have ht : (Char.ofNat (c.toNat + 32)).toNat = c.toNat + 32 :=
      toNat_ofNat_valid _ (by omega) (by omega)
    have h37 : ('%' : Char).toNat = 37 := by decide
    have h95 : ('_' : Char).toNat = 95 := by decide
    constructor
    · intro he
      rw [he, h37] at ht
      omega
    · intro he
      rw [he, h95] at ht
      omega
  · rw [if_neg hr]
    exact ⟨h1, h2⟩

theorem wildFreeL_map_toLower {q : List Char} (hq : wildFreeL q = true) :
    wildFreeL (q.map Char.toLower) = true := by
  apply List.all_eq_true.mpr
  intro x hx
  rcases List.mem_map.mp hx with ⟨c, hc, rfl⟩
  have h := wildFreeL_mem hq hc
  have h2 := toLower_preserves_nonwild c h.1 h.2
  simp only [Bool.and_eq_true, Bool.not_eq_true', beq_eq_false_iff_ne]
  exact h2

theorem searchPattern_toList (q : String) :
    (searchPattern q).toList.map Char.toLower =
      '%' :: (q.toList.map Char.toLower ++ ['%']) := by
  have h : (searchPattern q).toList = '%' :: (q.toList ++ ['%']) := by
    simp [searchPattern, String.toList, String.data_append]
  rw [h]
  simp

theorem ilike_searchPattern (v q : String) (hq : noWild q = true) :
    ilike v (searchPattern q) = specContainsCI v q := by
  unfold ilike specContainsCI
  rw [searchPattern_toList]
  exact likeMatch_percent_eq_contains _ (wildFreeL_map_toLower hq) _

/-! ### Conversation-history lemmas -/

theorem ensureSystemFirst_of_system {hist : List Msg} (h : startsWithSystem hist = true) :
    ensureSystemFirst hist = hist := by
  cases hist with
  | nil => simp [startsWithSystem] at h
  | cons m rest =>
    have hr : m.role = "system" := by simpa [startsWithSystem] using h
    simp [ensureSystemFirst, hr]

theorem ensureSystemFirst_of_not_system {hist : List Msg}
    (h : startsWithSystem hist = false) :
    ensureSystemFirst hist = systemMsg :: hist := by
  cases hist with
  | nil => simp [ensureSystemFirst]
  | cons m rest =>
    have hr : m.role ≠ "system" := by simpa [startsWithSystem] using h
    simp [ensureSystemFirst, hr]

theorem altUA_append_pair : ∀ (l : List Msg), altUA l = true → ∀ uc ac : String,
    altUA (l ++ [⟨"user", uc⟩, ⟨"assistant", ac⟩]) = true
  | [], _, uc, ac => by simp [altUA]
  | u :: a :: rest, h, uc, ac => by
    have h2 : ((u.role == "user" && a.role == "assistant") && altUA rest) = true := h
    rw [Bool.and_eq_true] at h2
    have hrec := altUA_append_pair rest h2.2 uc ac
    show ((u.role == "user" && a.role == "assistant") &&
      altUA (rest ++ [⟨"user", uc⟩, ⟨"assistant", ac⟩])) = true
    rw [Bool.and_eq_true]
    exact ⟨h2.1, hrec⟩
  | [x], h, uc, ac => by simp [altUA] at h

/-! ### Decomposition of the turn function -/

theorem finishTurn_ok {env : Env} {q : String} {hist : List Msg} {sq : String}
    {df : Table} {r : TurnResult} (h : finishTurn env q hist sq df = Except.ok r) :
    ∃ ans, env.genAnswer (answerPrompt q (formatResult df)) = Except.ok ans ∧
      r = { messages := ensureSystemFirst hist ++ [⟨"user", q⟩, ⟨"assistant", ans⟩],
            sql_query := sq, data := some df.rows, success := true, error := none } := by
  simp only [finishTurn] at h
  cases ha : env.genAnswer (answerPrompt q (formatResult df)) with
  | error e => rw [ha] at h; simp at h
  | ok ans =>
    rw [ha] at h
    simp only [Except.ok.injEq] at h
    exact ⟨ans, rfl, h.symm⟩

theorem run_cases {env : Env} {q : String} {hist : List Msg} {r : TurnResult}
    (h : get_response_for_chatbot env q hist = Except.ok r) :
    (∃ sd raw df, env.schemaDescription = Except.ok sd ∧
        env.genSql (sql_generation_prompt sd q) = Except.ok raw ∧
        env.runSql (sanitize raw) = Except.ok df ∧
        finishTurn env q hist (sanitize raw) df = Except.ok r) ∨
    (∃ tbl, env.store = Except.ok tbl ∧
        finishTurn env q hist fallbackQueryText
          (exposureTable (fallbackRows tbl q)) = Except.ok r) ∨
    (∃ e, env.store = Except.error e ∧ r = failureResult hist q e) := by
  unfold get_response_for_chatbot at h
  cases hsd : env.schemaDescription with
  | error e =>
    simp only [hsd] at h
    exact Except.noConfusion h
  | ok sd =>
    simp only [hsd] at h
    cases hg : env.genSql (sql_generation_prompt sd q) with
    | error e =>
      simp only [hg, fallbackBranch] at h
      cases hst : env.store with
      | ok tbl =>
        simp only [hst] at h
        exact Or.inr (Or.inl ⟨tbl, rfl, h⟩)
      | error fe =>
        simp only [hst, Except.ok.injEq] at h
        exact Or.inr (Or.inr ⟨fe, rfl, h.symm⟩)
    | ok raw =>
      simp only [hg] at h
      cases hr : env.runSql (sanitize raw) with
      | ok df =>
        simp only [hr] at h
        exact Or.inl ⟨sd, raw, df, rfl, hg, hr, h⟩
      | error e =>
        simp only [hr, fallbackBranch] at h
        cases hst : env.store with
        | ok tbl =>
          simp only [hst] at h
          exact Or.inr (Or.inl ⟨tbl, rfl, h⟩)
        | error fe =>
          simp only [hst, Except.ok.injEq] at h
          exact Or.inr (Or.inr ⟨fe, rfl, h.symm⟩)

/-! ### Heap lemmas -/

theorem Heap.get_alloc_lt {h : Heap} {v : List Msg} {a : Nat}
    (ha : a < h.lists.length) : (h.alloc v).1.get a = h.get a := by
  simp only [Heap.alloc, Heap.get]
  exact List.getD_append _ _ _ a ha

theorem Heap.get_extend_ne {h : Heap} {b : Nat} {vs : List Msg} {a : Nat}
    (hab : a ≠ b) : (h.extend b vs).get a = h.get a := by
  simp only [Heap.extend, Heap.get, List.getD_eq_getElem?_getD]
  rw [List.getElem?_set_ne (Ne.symm hab)]

/-! ### Invariant preservation helpers -/

theorem wfConv_ensure_append (hist : List Msg)
    (hwf : hist = [] ∨ wfConv hist = true) (uc ac : String) :
    wfConv (ensureSystemFirst hist ++ [⟨"user", uc⟩, ⟨"assistant", ac⟩]) = true := by
  rcases hwf with rfl | hwf
  · simp [ensureSystemFirst, wfConv, systemMsg, altUA]
  · cases hist with
    | nil => simp [wfConv] at hwf
    | cons m rest =>
      have h2 : (m.role == "system" && altUA rest) = true := hwf
      rw [Bool.and_eq_true] at h2
      have hr : m.role = "system" := by simpa using h2.1
      rw [ensureSystemFirst_of_system (by simp [startsWithSystem, hr])]
      show (m.role == "system" && altUA (rest ++ [⟨"user", uc⟩, ⟨"assistant", ac⟩])) = true
      rw [Bool.and_eq_true]
      exact ⟨h2.1, altUA_append_pair rest h2.2 uc ac⟩

theorem hist_infix_ensure_append (hist tail : List Msg) :
    hist <:+: (ensureSystemFirst hist ++ tail) := by
  unfold ensureSystemFirst
  split
  · exact ⟨[systemMsg], tail, by simp⟩
  · exact ⟨[], tail, by simp⟩

/-! ### Claims -/

/-- C6: for every conversation sequence, the ensure-system-first step
(lines 178-185) leaves the sequence unchanged if turn 0 already has
role `system`; otherwise it prepends exactly one system turn and
changes nothing else. -/
theorem c6_ensure_system_first (hist : List Msg) :
    (startsWithSystem hist = true → ensureSystemFirst hist = hist) ∧
    (startsWithSystem hist = false → ensureSystemFirst hist = systemMsg :: hist) :=
  ⟨fun h => ensureSystemFirst_of_system h, fun h => ensureSystemFirst_of_not_system h⟩

/-- Witness for C6: a history already led by a system turn is kept, and
a history led by a user turn gains exactly the system turn in front. -/
theorem c6_witness :
    ensureSystemFirst sampleHist = sampleHist ∧
    ensureSystemFirst [⟨"user", "hi"⟩] = systemMsg :: [⟨"user", "hi"⟩] :=
  ⟨(c6_ensure_system_first sampleHist).1 (by decide),
   (c6_ensure_system_first [⟨"user", "hi"⟩]).2 (by decide)⟩

/-- C8: the fallback query text is one fixed string, identical for
every user question (so also for one containing quote characters); the
question reaches the query only through the bound parameter list, the
same `%question%` literal repeated once per each of the 10 column
placeholders of the text. -/
theorem c8_fallback_injection_safe (q q' : String) :
    (mkFallbackQuery q).1 = (mkFallbackQuery q').1 ∧
    (mkFallbackQuery q).2 = List.replicate 10 ("%" ++ q ++ "%") ∧
    (mkFallbackQuery q).1 = fallbackQueryText ∧
    (fallbackQueryText.toList.count '?') = 10 :=
  ⟨rfl, rfl, rfl, by set_option maxRecDepth 20000 in decide⟩

/-- C9: formatting an empty result set yields exactly the sentinel text
`"No matching records found."`, never a zero-row table; a non-empty
result set yields a markdown-style table with a header line, a
separator line and one line per record. -/
theorem c9_format_result (t : Table) :
    (t.rows = [] → formatResult t = "No matching records found.") ∧
    (t.rows ≠ [] →
      formatResult t =
        String.intercalate "\n"
          (mdHeaderLine t.cols :: mdSepLine t.cols :: t.rows.map mdRowLine) ∧
      (mdLines t).length = t.rows.length + 2) := by
  constructor
  · intro h
    simp [formatResult, h]
  · intro h
    have hl : t.rows.length > 0 := List.length_pos.mpr h
    exact ⟨by simp [formatResult, hl, toMarkdown, mdLines], by simp [mdLines]⟩

/-- Witness for C9: the empty result set and a one-row result set. -/
theorem c9_witness :
    formatResult ⟨["a"], []⟩ = "No matching records found." ∧
    formatResult ⟨["a"], [["x"]]⟩ =
      String.intercalate "\n"
        (mdHeaderLine ["a"] :: mdSepLine ["a"] :: [["x"]].map mdRowLine) :=
  ⟨(c9_format_result ⟨["a"], []⟩).1 rfl,
   ((c9_format_result ⟨["a"], [["x"]]⟩).2 (by decide)).1⟩

/-- C3 (amended): for every user question free of the LIKE wildcard
characters `%` and `_`, the fallback query keeps exactly the rows one
of whose ten casted columns contains the raw question
case-insensitively as a substring — the per-column tests OR-ed — and
limits the result to 10 rows.  (The code binds the raw question inside
an ILIKE pattern, so wildcard characters in the question are
interpreted, not matched literally: see the counterexample.) -/
theorem c3_amended (tbl : List ExposureRow) (user_question : String)
    (hq : noWild user_question = true) :
    fallbackRows tbl user_question = specFallback tbl user_question := by
  unfold fallbackRows specFallback
  refine congrArg (List.take 10) ?_
  refine List.filter_congr ?_
  intro r _
  unfold rowMatches
  exact congrArg _ (funext fun v => ilike_searchPattern v user_question hq)

/-- C3 counterexample: with the one-row store `[sampleRow]` (vessel
name `"abc"`) and the question `"a_c"`, the fallback query returns the
row — the `_` in the question acts as a one-character wildcard — while
no column of the row contains `"a_c"` as a substring, so the fallback
is not substring containment of the raw question for every question. -/
theorem c3_cex :
    fallbackRows [sampleRow] "a_c" = [sampleRow] ∧
    specFallback [sampleRow] "a_c" = [] := by
  constructor <;> decide

/-- Witness for C3 at a wildcard-free question. -/
theorem c3_witness :
    noWild "abc" = true ∧
    fallbackRows [sampleRow] "abc" = specFallback [sampleRow] "abc" :=
  ⟨by decide, c3_amended [sampleRow] "abc" (by decide)⟩

/-- C2 (amended): a failure of the query-synthesis call is caught by
the same broad handler as a primary query-execution failure and the
turn proceeds with the fallback matcher; it is not surfaced as a
turn-level failure.  The turn fails only when the fallback execution
itself (the store read) fails. -/
theorem c2_amended (env : Env) (q : String) (hist : List Msg) (sd e : String)
    (hsd : env.schemaDescription = Except.ok sd)
    (hg : env.genSql (sql_generation_prompt sd q) = Except.error e) :
    get_response_for_chatbot env q hist = fallbackBranch env q hist ∧
    (∀ fe, env.store = Except.error fe →
      get_response_for_chatbot env q hist = Except.ok (failureResult hist q fe)) := by
  constructor
  · unfold get_response_for_chatbot
    simp only [hsd, hg]
  · intro fe hfe
    unfold get_response_for_chatbot
    simp only [hsd, hg, fallbackBranch, hfe]

/-- C2 counterexample: in `envGenFails` the query-synthesis call fails
with `Except.error "boom"`, yet the error is recovered locally by the
fallback matcher and the turn outcome has `success = true` — the
generation-endpoint failure does not propagate as a turn failure. -/
theorem c2_cex :
    envGenFails.genSql (sql_generation_prompt "schema" "hello") = Except.error "boom" ∧
    (get_response_for_chatbot envGenFails "hello" []).toOption.map (fun r => r.success)
      = some true :=
  ⟨rfl, rfl⟩

/-- Witness for C2 (amended) at a concrete environment. -/
theorem c2_witness :
    get_response_for_chatbot envGenFails "hello" [] = fallbackBranch envGenFails "hello" [] :=
  (c2_amended envGenFails "hello" [] "schema" "boom" rfl rfl).1

/-- C1 (amended): for a turn on an input history that is empty or
satisfies the invariant, a *successful* turn returns a message list
satisfying the invariant (exactly one leading system turn, then
alternating user/assistant turns); a *failed* turn returns the input
followed by a fresh system turn, the user turn and the apology turn —
the invariant then holds only for an empty input, since the appended
system turn duplicates the input's leading one.  In both cases every
input turn is kept, in order, as one contiguous block. -/
theorem c1_amended (env : Env) (q : String) (hist : List Msg) (r : TurnResult)
    (hwf : hist = [] ∨ wfConv hist = true)
    (h : get_response_for_chatbot env q hist = Except.ok r) :
    (r.success = true → wfConv r.messages = true) ∧
    (r.success = false → ∃ e, r.error = some e ∧
      r.messages = hist ++ [systemMsg, ⟨"user", q⟩, ⟨"assistant", apologyText e⟩]) ∧
    hist <:+: r.messages := by
  rcases run_cases h with ⟨sd, raw, df, hsd, hg, hr, hf⟩ | ⟨tbl, hst, hf⟩ | ⟨e, hst, hre⟩
  · obtain ⟨ans, hga, rfl⟩ := finishTurn_ok hf
    exact ⟨fun _ => wfConv_ensure_append hist hwf q ans,
      fun hs => by simp at hs,
      hist_infix_ensure_append hist _⟩
  · obtain ⟨ans, hga, rfl⟩ := finishTurn_ok hf
    exact ⟨fun _ => wfConv_ensure_append hist hwf q ans,
      fun hs => by simp at hs,
      hist_infix_ensure_append hist _⟩
  · subst hre
    refine ⟨fun hs => by simp [failureResult] at hs,
      fun _ => ⟨e, rfl, rfl⟩,
      ⟨[], [systemMsg, ⟨"user", q⟩, ⟨"assistant", apologyText e⟩], by
        simp [failureResult]⟩⟩

/-- C1 counterexample: a failed turn on the non-empty, well-formed
history `sampleHist` returns a message list with a second system turn
in the middle — the returned list does not start with exactly one
system turn followed by alternating user/assistant turns. -/
theorem c1_cex :
    wfConv sampleHist = true ∧
    get_response_for_chatbot envBothFail "q" sampleHist =
      Except.ok (failureResult sampleHist "q" "db gone") ∧
    wfConv (failureResult sampleHist "q" "db gone").messages = false :=
  ⟨by decide, rfl, by decide⟩

/-- Witness for C1 (amended): the failed turn on `sampleHist` keeps the
input as a contiguous block of the output. -/
theorem c1_witness :
    sampleHist <:+: (failureResult sampleHist "q" "db gone").messages :=
  (c1_amended envBothFail "q" sampleHist (failureResult sampleHist "q" "db gone")
    (Or.inr (by decide)) rfl).2.2

/-- C4: the turn outcome is never partially populated.  Whenever
`success` is true, `error` is null, a result set is present (`data` is
a list), the conversation ends with an assistant answer, and
`sql_query` is the query actually used (the sanitised synthesised text
when the primary path succeeded, otherwise the fallback text).
Whenever `success` is false, `error` is non-null and the last turn is
the apology assistant turn carrying that error. -/
theorem c4_outcome_integrity (env : Env) (q : String) (hist : List Msg)
    (r : TurnResult) (h : get_response_for_chatbot env q hist = Except.ok r) :
    (r.success = true → r.error = none ∧ (∃ rows, r.data = some rows) ∧
      (∃ ans, r.messages.getLast? = some ⟨"assistant", ans⟩) ∧
      (r.sql_query = fallbackQueryText ∨
        ∃ sd raw, env.schemaDescription = Except.ok sd ∧
          env.genSql (sql_generation_prompt sd q) = Except.ok raw ∧
          r.sql_query = sanitize raw)) ∧
    (r.success = false → ∃ e, r.error = some e ∧
      r.messages.getLast? = some ⟨"assistant", apologyText e⟩) := by
  rcases run_cases h with ⟨sd, raw, df, hsd, hg, hr, hf⟩ | ⟨tbl, hst, hf⟩ | ⟨e, hst, hre⟩
  · obtain ⟨ans, hga, rfl⟩ := finishTurn_ok hf
    refine ⟨fun _ => ⟨rfl, ⟨df.rows, rfl⟩, ⟨ans, ?_⟩, Or.inr ⟨sd, raw, hsd, hg, rfl⟩⟩,
      fun hs => by simp at hs⟩
    rw [show ensureSystemFirst hist ++ [⟨"user", q⟩, (⟨"assistant", ans⟩ : Msg)]
        = (ensureSystemFirst hist ++ [⟨"user", q⟩]) ++ [⟨"assistant", ans⟩] by simp]
    exact List.getLast?_concat _
  · obtain ⟨ans, hga, rfl⟩ := finishTurn_ok hf
    refine ⟨fun _ => ⟨rfl, ⟨(exposureTable (fallbackRows tbl q)).rows, rfl⟩, ⟨ans, ?_⟩,
      Or.inl rfl⟩, fun hs => by simp at hs⟩
    rw [show ensureSystemFirst hist ++ [⟨"user", q⟩, (⟨"assistant", ans⟩ : Msg)]
        = (ensureSystemFirst hist ++ [⟨"user", q⟩]) ++ [⟨"assistant", ans⟩] by simp]
    exact List.getLast?_concat _
  · subst hre
    refine ⟨fun hs => by simp [failureResult] at hs, fun _ => ⟨e, rfl, ?_⟩⟩
    show (hist ++ [systemMsg, ⟨"user", q⟩, ⟨"assistant", apologyText e⟩]).getLast?
      = some ⟨"assistant", apologyText e⟩
    rw [show hist ++ [systemMsg, ⟨"user", q⟩, (⟨"assistant", apologyText e⟩ : Msg)]
        = (hist ++ [systemMsg, ⟨"user", q⟩]) ++ [⟨"assistant", apologyText e⟩] by simp]
    exact List.getLast?_concat _

/-- Witness for C4: the fully failed turn of `envBothFail` has a
non-null error and ends with the apology turn. -/
theorem c4_witness :
    ∃ e, (failureResult [] "q" "db gone").error = some e ∧
      (failureResult [] "q" "db gone").messages.getLast?
        = some ⟨"assistant", apologyText e⟩ :=
  (c4_outcome_integrity envBothFail "q" [] (failureResult [] "q" "db gone") rfl).2 rfl

/-- C5: when the synthesised query fails to execute and the fallback
query executes (and the answer call returns), the outcome succeeds and
its `sql_query` field holds the fallback query text, not the failed
synthesised text. -/
theorem c5_fallback_query_reported (env : Env) (q : String) (hist : List Msg)
    (sd raw e : String) (tbl : List ExposureRow) (ans : String)
    (hsd : env.schemaDescription = Except.ok sd)
    (hg : env.genSql (sql_generation_prompt sd q) = Except.ok raw)
    (hr : env.runSql (sanitize raw) = Except.error e)
    (hst : env.store = Except.ok tbl)
    (ha : env.genAnswer
      (answerPrompt q (formatResult (exposureTable (fallbackRows tbl q)))) = Except.ok ans)
    (hne : sanitize raw ≠ fallbackQueryText) :
    ∃ r, get_response_for_chatbot env q hist = Except.ok r ∧
      r.success = true ∧ r.sql_query = fallbackQueryText ∧
      r.sql_query ≠ sanitize raw := by
  unfold get_response_for_chatbot
  simp only [hsd, hg, hr, fallbackBranch, hst, finishTurn, ha]
  exact ⟨_, rfl, rfl, rfl, fun hcontra => hne hcontra.symm⟩

/-- Witness for C5 in `envPrimaryExecFails`. -/
theorem c5_witness :
    ∃ r, get_response_for_chatbot envPrimaryExecFails "acme" [] = Except.ok r ∧
      r.success = true ∧ r.sql_query = fallbackQueryText ∧
      r.sql_query ≠ sanitize "SELECT nosuch FROM t" :=
  c5_fallback_query_reported envPrimaryExecFails "acme" [] "schema"
    "SELECT nosuch FROM t" "Binder Error" [sampleRow] "the answer"
    rfl rfl rfl rfl rfl (by decide)

/-- C7: a successful turn returns input length + 2 messages (the new
user and assistant turns), or input length + 3 when a system turn also
had to be inserted. -/
theorem c7_success_message_count (env : Env) (q : String) (hist : List Msg)
    (r : TurnResult) (h : get_response_for_chatbot env q hist = Except.ok r)
    (hs : r.success = true) :
    (startsWithSystem hist = true → r.messages.length = hist.length + 2) ∧
    (startsWithSystem hist = false → r.messages.length = hist.length + 3) := by
  rcases run_cases h with ⟨sd, raw, df, hsd, hg, hr, hf⟩ | ⟨tbl, hst, hf⟩ | ⟨e, hst, hre⟩
  · obtain ⟨ans, hga, rfl⟩ := finishTurn_ok hf
    constructor
    · intro hsys
      show (ensureSystemFirst hist ++ [(⟨"user", q⟩ : Msg), (⟨"assistant", ans⟩ : Msg)]).length = _
      rw [ensureSystemFirst_of_system hsys]
      simp
    · intro hsys
      show (ensureSystemFirst hist ++ [(⟨"user", q⟩ : Msg), (⟨"assistant", ans⟩ : Msg)]).length = _
      rw [ensureSystemFirst_of_not_system hsys]
      simp
  · obtain ⟨ans, hga, rfl⟩ := finishTurn_ok hf
    constructor
    · intro hsys
      show (ensureSystemFirst hist ++ [(⟨"user", q⟩ : Msg), (⟨"assistant", ans⟩ : Msg)]).length = _
      rw [ensureSystemFirst_of_system hsys]
      simp
    · intro hsys
      show (ensureSystemFirst hist ++ [(⟨"user", q⟩ : Msg), (⟨"assistant", ans⟩ : Msg)]).length = _
      rw [ensureSystemFirst_of_not_system hsys]
      simp
  · subst hre
    simp [failureResult] at hs

/-- Witness for C7: the successful fallback turn of `envGenFails` on an
empty history returns 3 = 0 + 3 messages (system turn inserted). -/
theorem c7_witness :
    resultGenFails.messages.length = ([] : List Msg).length + 3 :=
  (c7_success_message_count envGenFails "hello" [] resultGenFails rfl rfl).2 rfl

/-- C10: neither message-history build path mutates the caller's
history object: in the object-level model of lines 147-153 and 178-191,
the list at the history's address is unchanged and the returned list is
a freshly allocated object at a different address, on the success path
and on the failure path alike. -/
theorem c10_no_history_mutation (h : Heap) (a : Nat) (q ans err : String)
    (ha : a < h.lists.length) :
    ((buildMessagesOnSuccess h a q ans).1.get a = h.get a ∧
      (buildMessagesOnSuccess h a q ans).2 ≠ a) ∧
    ((buildMessagesOnFailure h a q err).1.get a = h.get a ∧
      (buildMessagesOnFailure h a q err).2 ≠ a) := by
  have hane : a ≠ h.lists.length := Nat.ne_of_lt ha
  have hfresh : ∀ v : List Msg, a ≠ (h.alloc v).2 := fun v => by
    simpa [Heap.alloc] using hane
  constructor
  · unfold buildMessagesOnSuccess
    split
    · dsimp only
      constructor
      · rw [Heap.get_extend_ne (hfresh [systemMsg])]
        split
        · exact Heap.get_alloc_lt ha
        · rw [Heap.get_extend_ne (hfresh [systemMsg])]
          exact Heap.get_alloc_lt ha
      · exact fun hc => (hfresh [systemMsg]) hc.symm
    · dsimp only
      constructor
      · rw [Heap.get_extend_ne (hfresh (h.get a))]
        exact Heap.get_alloc_lt ha
      · exact fun hc => (hfresh (h.get a)) hc.symm
  · unfold buildMessagesOnFailure
    constructor
    · exact Heap.get_alloc_lt ha
    · exact fun hc => (hfresh _) hc.symm

/-- Witness for C10 on the one-object heap `heap0`. -/
theorem c10_witness :
    ((buildMessagesOnSuccess heap0 0 "q" "a").1.get 0 = heap0.get 0 ∧
      (buildMessagesOnSuccess heap0 0 "q" "a").2 ≠ 0) ∧
    ((buildMessagesOnFailure heap0 0 "q" "err").1.get 0 = heap0.get 0 ∧
      (buildMessagesOnFailure heap0 0 "q" "err").2 ≠ 0) :=
  c10_no_history_mutation heap0 0 "q" "a" "err" (by decide)
